import Mathlib

/-!
Shallow embedding of the doris JWT middleware (src/unnamed/part_000, error
codes and messages from src/unnamed/part_002) and proofs about the claims
of its specification.

Go strings are modelled as Lean `String`; Go byte-slicing on the ASCII
values involved is modelled by character-level `take`/`drop`/`length`.
The external token codec/verifier (github.com/dgrijalva/jwt-go) is a
declared out-of-scope collaborator: its per-request output is supplied to
the gate as an explicit parse oracle, and its use of the key-resolution
function is modelled from the spec where a claim needs it.
-/

namespace DorisJWT

/-- HTTP status constant net/http.StatusUnauthorized. -/
def StatusUnauthorized : Nat := 401

/-- HTTP status constant net/http.StatusBadRequest. -/
def StatusBadRequest : Nat := 400

/-- Default algorithm name (src/unnamed/part_000 line 82). -/
def AlgorithmHS256 : String := "HS256"

/-- Modelled from the spec: the initial value of the doris package variable
`Authorization` naming the default token header (the doris package itself is
not under src/; spec section 3 gives the default token source as
header/"Authorization"). -/
def Authorization : String := "Authorization"

/-! doris error codes, src/unnamed/part_002 lines 38-45. -/

def TokenExpired : Nat := 10400
def TokenNotValidYet : Nat := 10401
def TokenMalformed : Nat := 10402
def TokenInvalid : Nat := 10403
def JWTMissing : Nat := 10404
def TokenRefresh : Nat := 10405

/-! doris error message strings (`.Error()` texts), src/unnamed/part_002
lines 27-34. -/

def TokenExpiredErr : String := "Token is expired"
def TokenNotValidYetErr : String := "Token not active yet"
def TokenMalformedErr : String := "That\x27s not even a token"
def TokenInvalidErr : String := "Couldn\x27t handle this token:"
def JWTMissingErr : String := "Missing or Malformed JWT"
def TokenRefreshErr : String := "This token is for refresh!"

/-- Character-level model of Go `s[:n]` on the header strings involved. -/
def strTake (s : String) (n : Nat) : String := String.mk (s.data.take n)

/-- Character-level model of Go `s[n:]`. -/
def strDrop (s : String) (n : Nat) : String := String.mk (s.data.drop n)

/-- `s` starts with `p` (used to state the spec-side header condition). -/
def strStartsWith (s p : String) : Bool := p.data.isPrefixOf s.data

/-- Model of Go `strings.Split(s, ":")` used on `TokenLookup`
(src/unnamed/part_000 line 147). -/
def splitOnColonAux : List Char → List Char → List String
  | [], acc => [String.mk acc.reverse]
  | c :: cs, acc =>
    if c = ':' then String.mk acc.reverse :: splitOnColonAux cs []
    else splitOnColonAux cs (c :: acc)

def splitOnColon (s : String) : List String := splitOnColonAux s.data []

/-- A dynamically typed JSON claim value as seen through a Go interface:
either a string or some non-string value.  Go's unchecked type assertion
`.(string)` succeeds exactly on `str`. -/
inductive JVal where
  | str : String → JVal
  | nonString : JVal
deriving DecidableEq, Repr

/-- The shape of `token.Claims` after parsing: `jwt.MapClaims` (a string-keyed
map, modelled as an association list) or a user-defined claims structure. -/
inductive TokenClaims where
  | mapClaims : List (String × JVal) → TokenClaims
  | custom : TokenClaims
deriving DecidableEq, Repr

/-- Bit-flags of `jwt.ValidationError.Errors` that the middleware inspects
(src/unnamed/part_000 lines 216-229): `ValidationErrorMalformed`,
`ValidationErrorExpired`, `ValidationErrorNotValidYet`. All other bits land
in the final `else`. -/
structure VFlags where
  malformed : Bool
  expired : Bool
  notValidYet : Bool
deriving DecidableEq, Repr

/-- A `*jwt.ValidationError`: its flag word plus its `.Error()` text. -/
structure VErr where
  flags : VFlags
  msg : String
deriving DecidableEq, Repr

/-- The outcome of `jwt.Parse` / `jwt.ParseWithClaims` for one token string,
supplied by the external library: the parsed token's claims, its `Valid`
bit, and the returned error (if any). -/
structure ParseResult where
  claims : TokenClaims
  valid : Bool
  err : Option VErr
deriving DecidableEq, Repr

/-- An inbound request, carrying the four token sources the extractors read. -/
structure Request where
  headers : List (String × String)
  query : List (String × String)
  pathParams : List (String × String)
  cookies : List (String × String)
deriving Repr

/-- Modelled from the spec: doris context accessor `getHeader` (the doris
context is not under src/); an absent header reads as `""`, as with Go's
`http.Header.Get`. -/
def headerGet (req : Request) (name : String) : String :=
  (req.headers.lookup name).getD ""

/-- Modelled from the spec: doris context accessor `getQueryParam`; an absent
parameter reads as `""`. -/
def queryParamGet (req : Request) (name : String) : String :=
  (req.query.lookup name).getD ""

/-- Modelled from the spec: doris context accessor `getPathParam`; spec
section 4.2 classifies an empty/absent path parameter as MissingToken, so an
absent parameter reads as `""`. -/
def pathParamGet (req : Request) (name : String) : String :=
  (req.pathParams.lookup name).getD ""

/-- Modelled from the spec: doris context accessor `getCookie`; retrieval
fails (returns `none`) when the cookie is not present. -/
def cookieGet (req : Request) (name : String) : Option String :=
  req.cookies.lookup name

/-- jwtFromHeader, src/unnamed/part_000 lines 248-257: require the value to
be strictly longer than `len(authScheme)+1` and to have `authScheme` as a
prefix, then slice off `len(authScheme)+1` characters.  (Note: the character
at position `len(authScheme)` is sliced off but never compared.) -/
def jwtFromHeader (header : String) (authScheme : String) (req : Request) :
    Except String String :=
  let auth := headerGet req header
  let l := authScheme.length
  if auth.length > l + 1 ∧ strTake auth l = authScheme then
    Except.ok (strDrop auth (l + 1))
  else
    Except.error JWTMissingErr

/-- jwtFromQuery, src/unnamed/part_000 lines 260-268. -/
def jwtFromQuery (param : String) (req : Request) : Except String String :=
  let token := queryParamGet req param
  if token = "" then Except.error JWTMissingErr else Except.ok token

/-- jwtFromParam, src/unnamed/part_000 lines 271-279. -/
def jwtFromParam (param : String) (req : Request) : Except String String :=
  let token := pathParamGet req param
  if token = "" then Except.error JWTMissingErr else Except.ok token

/-- jwtFromCookie, src/unnamed/part_000 lines 282-290. -/
def jwtFromCookie (name : String) (req : Request) : Except String String :=
  match cookieGet req name with
  | none => Except.error JWTMissingErr
  | some v => Except.ok v

/-- Shape selector for `JWTConfig.Claims` (src/unnamed/part_000 lines 186-192):
the generic `jwt.MapClaims` map, or a user-defined claims structure decoded by
`ParseWithClaims`. -/
inductive ClaimsShape where
  | mapClaims : ClaimsShape
  | custom : ClaimsShape
deriving DecidableEq, Repr

/-- JWTConfig, src/unnamed/part_000 lines 15-62.  Function-valued hooks whose
behaviour is user-supplied (`SuccessHandler`, `ErrorHandler`,
`ErrorHandlerWithContext`) are modelled by their presence; Go `nil` fields are
`none` / `""` / `false`. -/
structure JWTConfig where
  Skipper : Option (Request → Bool)
  SuccessHandler : Bool
  ErrorHandler : Bool
  ErrorHandlerWithContext : Bool
  SigningKey : Option String
  SigningMethod : String
  ContextKey : String
  Claims : Option ClaimsShape
  TokenLookup : String
  AuthScheme : String

/-- The key-resolution closure `config.keyFunc` built at setup time
(src/unnamed/part_000 lines 137-144): given the token's algorithm name,
reject on mismatch with the configured signing method, otherwise hand the
signing key to the verifier. -/
def mkKeyFunc (signingMethod : String) (signingKey : String) :
    String → Except String String := fun alg =>
  if alg ≠ signingMethod then
    Except.error ("unexpected jwt signing method=" ++ alg)
  else
    Except.ok signingKey

/-- The state captured by the middleware closure returned by `JWTWithConfig`
after default resolution (src/unnamed/part_000 lines 116-156). -/
structure ResolvedConfig where
  skipper : Request → Bool
  successHandler : Bool
  errorHandler : Bool
  errorHandlerWithContext : Bool
  signingKey : String
  signingMethod : String
  contextKey : String
  claims : ClaimsShape
  authScheme : String
  keyFunc : String → Except String String
  extractor : Request → Except String String

/-- The two ways `JWTWithConfig` can abort at configuration time: the explicit
panic on a missing signing key (src/unnamed/part_000 lines 119-121), and the
index-out-of-range panic of `parts[1]` when `TokenLookup` has no `":"`
(src/unnamed/part_000 lines 147-148). -/
inductive SetupError where
  | missingSigningKey : SetupError
  | tokenLookupOutOfRange : SetupError
deriving DecidableEq, Repr

/-- JWTWithConfig, src/unnamed/part_000 lines 114-156: resolve defaults,
panic on a missing signing key, build the key function, and select the
extractor from `TokenLookup`.  A Go panic is `Except.error`; success returns
the resolved closure state. -/
def JWTWithConfig (config : JWTConfig) : Except SetupError ResolvedConfig :=
  let skipper := config.Skipper.getD (fun _ => false)
  match config.SigningKey with
  | none => Except.error SetupError.missingSigningKey
  | some key =>
    let signingMethod :=
      if config.SigningMethod = "" then AlgorithmHS256 else config.SigningMethod
    let contextKey :=
      if config.ContextKey = "" then "user" else config.ContextKey
    let claims := config.Claims.getD ClaimsShape.mapClaims
    let tokenLookup :=
      if config.TokenLookup = "" then "header:" ++ Authorization
      else config.TokenLookup
    let authScheme :=
      if config.AuthScheme = "" then "Bearer" else config.AuthScheme
    let keyFunc := mkKeyFunc signingMethod key
    match splitOnColon tokenLookup with
    | p0 :: p1 :: _ =>
      let extractor :=
        match p0 with
        | "query" => jwtFromQuery p1
        | "param" => jwtFromParam p1
        | "cookie" => jwtFromCookie p1
        | _ => jwtFromHeader p1 authScheme
      Except.ok
        { skipper := skipper, successHandler := config.SuccessHandler,
          errorHandler := config.ErrorHandler,
          errorHandlerWithContext := config.ErrorHandlerWithContext,
          signingKey := key, signingMethod := signingMethod,
          contextKey := contextKey, claims := claims,
          authScheme := authScheme, keyFunc := keyFunc,
          extractor := extractor }
    | _ => Except.error SetupError.tokenLookupOutOfRange

/-- Observable per-request effects of the middleware on the doris context, in
the order they are performed: calling the next handler, writing a JSON body
`{"code": code, "message": msg}` with an HTTP status, aborting the chain,
storing a value under a context key, and invoking the configured hooks. -/
inductive Effect where
  | next : Effect
  | json : Nat → Nat → String → Effect
  | abort : Effect
  | setParam : String → Effect
  | successHook : Effect
  | errorHook : Effect
  | errorHookCtx : Effect
deriving DecidableEq, Repr

/-- The value returned by (or the panic escaping from) one run of the
middleware closure, tagged by its return site in src/unnamed/part_000. -/
inductive Ret where
  | ok : Ret
  | fromErrorHandler : Ret
  | fromErrorHandlerCtx : Ret
  | errJWTMissing : Ret
  | errRefresh : Ret
  | errParse : VErr → Ret
  | panicked : Ret
deriving DecidableEq, Repr

/-- The full observable outcome of one request through the middleware. -/
structure GateResult where
  trace : List Effect
  ret : Ret
deriving DecidableEq, Repr

/-- Outcome of the refresh-token test on line 195-196 of
src/unnamed/part_000: `claims, ok := token.Claims.(jwt.MapClaims)` followed by
the unchecked assertion `claims["auth_type"].(string)`.  When the claims are
map-shaped, a missing `"auth_type"` entry or a non-string value makes the
assertion panic. -/
inductive RefreshOutcome where
  | typeAssertFail : RefreshOutcome
  | isRefresh : RefreshOutcome
  | notRefresh : RefreshOutcome
deriving DecidableEq, Repr

def refreshTest : TokenClaims → RefreshOutcome
  | TokenClaims.custom => RefreshOutcome.notRefresh
  | TokenClaims.mapClaims m =>
    match m.lookup "auth_type" with
    | some (JVal.str s) =>
      if s = "refresh" then RefreshOutcome.isRefresh else RefreshOutcome.notRefresh
    | some JVal.nonString => RefreshOutcome.typeAssertFail
    | none => RefreshOutcome.typeAssertFail

/-- Error classification, src/unnamed/part_000 lines 216-229: short-circuit
checks of the validation-error bit flags, first match wins. -/
def classify (f : VFlags) : Nat × String :=
  if f.malformed then (TokenMalformed, TokenMalformedErr)
  else if f.expired then (TokenExpired, TokenExpiredErr)
  else if f.notValidYet then (TokenNotValidYet, TokenNotValidYetErr)
  else (TokenInvalid, TokenInvalidErr)

/-- The effects emitted before extraction: the skip branch
(src/unnamed/part_000 lines 164-166) calls the next handler when the skipper
fires, and — lacking a `return` — falls through. -/
def skipPre (cfg : ResolvedConfig) (req : Request) : List Effect :=
  if cfg.skipper req then [Effect.next] else []

/-- The middleware closure returned by `JWTWithConfig`, src/unnamed/part_000
lines 159-244, as a function of the request and of the external library's
parse outcome for the extracted token string.  Control flow is translated
branch for branch; a Go panic yields `Ret.panicked` with the effects
performed so far. -/
def jwtGate (cfg : ResolvedConfig) (req : Request)
    (parse : String → ParseResult) : GateResult :=
  let pre := skipPre cfg req
  match cfg.extractor req with
  | Except.error e =>
    if cfg.errorHandler then
      { trace := pre ++ [Effect.errorHook], ret := Ret.fromErrorHandler }
    else if cfg.errorHandlerWithContext then
      { trace := pre ++ [Effect.errorHookCtx], ret := Ret.fromErrorHandlerCtx }
    else
      { trace := pre ++
          [Effect.json StatusUnauthorized StatusUnauthorized ("JWT ERR: " ++ e),
           Effect.abort],
        ret := Ret.errJWTMissing }
  | Except.ok auth =>
    let p := parse auth
    match refreshTest p.claims with
    | RefreshOutcome.typeAssertFail => { trace := pre, ret := Ret.panicked }
    | RefreshOutcome.isRefresh =>
      { trace := pre ++
          [Effect.json StatusUnauthorized TokenRefresh
             ("Invalid or Expired JWT: " ++ TokenRefreshErr),
           Effect.abort],
        ret := Ret.errRefresh }
    | RefreshOutcome.notRefresh =>
      match p.err, p.valid with
      | none, true =>
        { trace := pre ++ [Effect.setParam cfg.contextKey] ++
            (if cfg.successHandler then [Effect.successHook] else []) ++
            [Effect.next],
          ret := Ret.ok }
      | some ve, _ =>
        let cm := classify ve.flags
        if cfg.errorHandler then
          { trace := pre ++ [Effect.errorHook], ret := Ret.fromErrorHandler }
        else if cfg.errorHandlerWithContext then
          { trace := pre ++ [Effect.errorHookCtx], ret := Ret.fromErrorHandlerCtx }
        else
          { trace := pre ++
              [Effect.json StatusUnauthorized cm.1
                 ("Invalid or Expired JWT: " ++ cm.2 ++
                  " [ origin err: " ++ ve.msg ++ " ] "),
               Effect.abort],
            ret := Ret.errParse ve }
      | none, false =>
        if cfg.errorHandler then
          { trace := pre ++ [Effect.errorHook], ret := Ret.fromErrorHandler }
        else if cfg.errorHandlerWithContext then
          { trace := pre ++ [Effect.errorHookCtx], ret := Ret.fromErrorHandlerCtx }
        else
          { trace := pre, ret := Ret.panicked }

/-- Running `JWTWithConfig` and then one request through the resulting
middleware. -/
def runJWT (config : JWTConfig) (req : Request)
    (parse : String → ParseResult) : Except SetupError GateResult :=
  (JWTWithConfig config).map (fun cfg => jwtGate cfg req parse)

/-! ## Spec-side definitions used for refinement comparisons -/

/-- First-match evaluation of an ordered list of predicate/result rules,
falling back to a default: the spec's description (section 9) of the
error-classification step as "an explicit ordered list of predicate checks
..., evaluated short-circuit, first match wins". -/
def firstMatch : List ((VFlags → Bool) × (Nat × String)) → (Nat × String) →
    VFlags → Nat × String
  | [], dflt, _ => dflt
  | (p, r) :: rest, dflt, f => if p f then r else firstMatch rest dflt f

/-- The classification exactly as the spec words it: Malformed, then Expired,
then NotYetValid, then Generic, first match wins. -/
def specClassify (f : VFlags) : Nat × String :=
  firstMatch
    [(fun g => g.malformed, (TokenMalformed, TokenMalformedErr)),
     (fun g => g.expired, (TokenExpired, TokenExpiredErr)),
     (fun g => g.notValidYet, (TokenNotValidYet, TokenNotValidYetErr))]
    (TokenInvalid, TokenInvalidErr) f

/-- Modelled from the spec (section 4.1): the external verifier's
key-resolution step.  The verifier calls the configured key function with the
token's algorithm name; on error no key is handed over and the signature
comparison never runs (first component: the key given to the signature check,
second component: whether the signature check runs). -/
def libKeyStep (kf : String → Except String String) (alg : String) :
    Option String × Bool :=
  match kf alg with
  | Except.error _ => (none, false)
  | Except.ok k => (some k, true)

/-! ## Shared concrete inputs -/

/-- A request carrying no token in any source. -/
def reqNoToken : Request := ⟨[], [], [], []⟩

/-- A parse oracle for runs in which parsing is never reached. -/
def parseUnused : String → ParseResult :=
  fun _ => ⟨TokenClaims.custom, false, none⟩

/-! ## Claims -/

/-- C7: a configuration whose SigningKey is nil makes JWTWithConfig panic at
configuration time (src/unnamed/part_000 lines 119-121), so no request
handler is ever returned and a missing signing key cannot surface as a
per-request error. -/
theorem C7_missing_signing_key_fails_fast (config : JWTConfig)
    (h : config.SigningKey = none) :
    JWTWithConfig config = Except.error SetupError.missingSigningKey := by
  unfold JWTWithConfig
  rw [h]

def cfgW7 : JWTConfig := ⟨none, false, false, false, none, "", "", none, "", ""⟩

/-- C7 witness: the all-defaults configuration with no signing key aborts
setup. -/
theorem C7_witness :
    JWTWithConfig cfgW7 = Except.error SetupError.missingSigningKey :=
  C7_missing_signing_key_fails_fast cfgW7 rfl

/-- C8: the middleware's classification of a library validation error equals
the spec's short-circuit priority list Malformed > Expired > NotYetValid >
Generic; in particular a token flagged both malformed and expired is
classified Malformed. -/
theorem C8_classification_priority :
    (∀ f : VFlags, classify f = specClassify f) ∧
    classify ⟨true, true, true⟩ = (TokenMalformed, TokenMalformedErr) ∧
    classify ⟨true, true, false⟩ = (TokenMalformed, TokenMalformedErr) := by
  refine ⟨?_, rfl, rfl⟩
  intro f
  rcases f with ⟨m, e, n⟩
  cases m <;> cases e <;> cases n <;> rfl

def cfgC1 : JWTConfig :=
  ⟨none, false, false, false, some "secret", "", "", none, "", ""⟩

/-- C1: the claim says a MissingToken extraction failure with no error hook is
rejected with HTTP 400 Bad Request; the code (src/unnamed/part_000 line 180)
writes HTTP 401 with body code 401, contradicting its own doc comment
(lines 100-102, "For missing token, it returns `400 - Bad Request` error")
and its tests.  This theorem evaluates the middleware at the failing input:
default config, no token anywhere, no hooks. -/
theorem C1_missing_token_gets_401_not_400 :
    runJWT cfgC1 reqNoToken parseUnused =
      Except.ok
        ⟨[Effect.json StatusUnauthorized StatusUnauthorized
            ("JWT ERR: " ++ JWTMissingErr), Effect.abort],
         Ret.errJWTMissing⟩ ∧
    StatusUnauthorized ≠ StatusBadRequest :=
  ⟨rfl, by decide⟩

def cfgC2 : JWTConfig :=
  ⟨some (fun _ => true), false, false, false, some "secret", "", "", none, "", ""⟩

/-- C2: the claim says a request for which the skip predicate returns true
gets passthrough only, with no extraction or rejection; the code
(src/unnamed/part_000 lines 164-166) calls the next handler but lacks a
return, so it falls through into extraction and, here, rejection: the trace
shows both the skip passthrough and a full missing-token rejection on the
same request. -/
theorem C2_skip_falls_through_to_rejection :
    runJWT cfgC2 reqNoToken parseUnused =
      Except.ok
        ⟨[Effect.next,
          Effect.json StatusUnauthorized StatusUnauthorized
            ("JWT ERR: " ++ JWTMissingErr), Effect.abort],
         Ret.errJWTMissing⟩ :=
  rfl

/-- C3: whenever the parsed claims are map-shaped and carry the entry
`auth_type = "refresh"`, the middleware rejects with HTTP 401 and code 10405
(`TokenRefresh`) and never admits the request — for every resolved
configuration, every parse outcome with those claims (in particular a
cryptographically valid one, since `valid` and `err` are unconstrained), and
regardless of hooks (the refresh branch, src/unnamed/part_000 lines 194-203,
consults none). -/
theorem C3_refresh_always_rejected (cfg : ResolvedConfig) (req : Request)
    (parse : String → ParseResult) (auth : String) (m : List (String × JVal))
    (hext : cfg.extractor req = Except.ok auth)
    (hc : (parse auth).claims = TokenClaims.mapClaims m)
    (ha : m.lookup "auth_type" = some (JVal.str "refresh")) :
    jwtGate cfg req parse =
      ⟨skipPre cfg req ++
        [Effect.json StatusUnauthorized TokenRefresh
           ("Invalid or Expired JWT: " ++ TokenRefreshErr), Effect.abort],
       Ret.errRefresh⟩ := by
  have hrt : refreshTest (parse auth).claims = RefreshOutcome.isRefresh := by
    rw [hc]
    simp [refreshTest, ha]
  unfold jwtGate
  rw [hext]
  simp [hrt]

def cfgW3 : ResolvedConfig :=
  ⟨fun _ => false, false, false, false, "secret", "HS256", "user",
   ClaimsShape.mapClaims, "Bearer", mkKeyFunc "HS256" "secret",
   jwtFromHeader "Authorization" "Bearer"⟩

def reqW3 : Request := ⟨[("Authorization", "Bearer tok")], [], [], []⟩

def parseW3 : String → ParseResult :=
  fun _ => ⟨TokenClaims.mapClaims [("auth_type", JVal.str "refresh")], true, none⟩

/-- C3 witness: a validly signed token (`valid = true`, no error) whose map
claims carry `auth_type = "refresh"` is rejected with 401 / 10405. -/
theorem C3_witness :
    jwtGate cfgW3 reqW3 parseW3 =
      ⟨[Effect.json StatusUnauthorized TokenRefresh
          ("Invalid or Expired JWT: " ++ TokenRefreshErr), Effect.abort],
       Ret.errRefresh⟩ :=
  C3_refresh_always_rejected cfgW3 reqW3 parseW3 "tok"
    [("auth_type", JVal.str "refresh")] rfl rfl rfl

def reqC4 : Request := ⟨[("Authorization", "BearerXab")], [], [], []⟩

/-- C4 counterexample: the claim requires the header value to start with
`authScheme` followed by a single space for extraction to succeed, but
`jwtFromHeader` (src/unnamed/part_000 lines 248-257) never inspects the
character after the scheme: on the value `"BearerXab"` against the scheme
`"Bearer"` extraction succeeds with `"ab"` even though the value does not
start with `"Bearer "`. -/
theorem C4_counterexample :
    jwtFromHeader "Authorization" "Bearer" reqC4 = Except.ok "ab" ∧
    strStartsWith (headerGet reqC4 "Authorization") ("Bearer" ++ " ") = false := by
  constructor
  · rfl
  · decide

/-- C4 amended: header-mode extraction succeeds, returning the value with its
first `len(authScheme)+1` characters sliced off, if and only if the named
header value is strictly longer than `len(authScheme)+1` and its first
`len(authScheme)` characters equal `authScheme`; the separator character
after the scheme is sliced off but never compared, and everything else
(absent header, too short, wrong scheme) yields MissingToken. -/
theorem C4_header_extraction_amended (header authScheme : String)
    (req : Request) (t : String) :
    jwtFromHeader header authScheme req = Except.ok t ↔
      ((headerGet req header).length > authScheme.length + 1 ∧
       strTake (headerGet req header) authScheme.length = authScheme ∧
       t = strDrop (headerGet req header) (authScheme.length + 1)) := by
  simp only [jwtFromHeader]
  by_cases h : (headerGet req header).length > authScheme.length + 1 ∧
      strTake (headerGet req header) authScheme.length = authScheme
  · rw [if_pos h]
    constructor
    · intro hok
      exact ⟨h.1, h.2, (Except.ok.injEq _ _).mp hok |>.symm⟩
    · rintro ⟨-, -, ht⟩
      rw [ht]
  · rw [if_neg h]
    constructor
    · intro hok
      cases hok
    · rintro ⟨h1, h2, -⟩
      exact absurd ⟨h1, h2⟩ h

/-- C9: when the parsed claims are map-shaped but the `"auth_type"` entry is
absent or not a string, the unchecked assertion
`claims["auth_type"].(string)` (src/unnamed/part_000 line 196) panics: the
run ends in `Ret.panicked` with no response written, instead of treating the
token as a non-refresh token. -/
theorem C9_missing_auth_type_panics (cfg : ResolvedConfig) (req : Request)
    (parse : String → ParseResult) (auth : String) (m : List (String × JVal))
    (hext : cfg.extractor req = Except.ok auth)
    (hc : (parse auth).claims = TokenClaims.mapClaims m)
    (hv : ∀ s, m.lookup "auth_type" ≠ some (JVal.str s)) :
    jwtGate cfg req parse = ⟨skipPre cfg req, Ret.panicked⟩ ∧
    ∀ s c msg, Effect.json s c msg ∉ (jwtGate cfg req parse).trace := by
  have hrt : refreshTest (parse auth).claims = RefreshOutcome.typeAssertFail := by
    rw [hc]
    rcases hl : m.lookup "auth_type" with _ | v
    · simp [refreshTest, hl]
    · rcases v with s | _
      · exact absurd hl (hv s)
      · simp [refreshTest, hl]
  have hg : jwtGate cfg req parse = ⟨skipPre cfg req, Ret.panicked⟩ := by
    unfold jwtGate
    rw [hext]
    simp [hrt]
  refine ⟨hg, ?_⟩
  intro s c msg
  rw [hg]
  unfold skipPre
  split <;> simp

def cfgW9 : ResolvedConfig :=
  ⟨fun _ => false, false, false, false, "secret", "HS256", "user",
   ClaimsShape.mapClaims, "Bearer", mkKeyFunc "HS256" "secret",
   jwtFromHeader "Authorization" "Bearer"⟩

def reqW9 : Request := ⟨[("Authorization", "Bearer tok")], [], [], []⟩

def parseW9 : String → ParseResult :=
  fun _ => ⟨TokenClaims.mapClaims [("sub", JVal.str "alice")], true, none⟩

/-- C9 witness: a valid token whose map claims have no `"auth_type"` entry
makes the gate panic with no response. -/
theorem C9_witness :
    jwtGate cfgW9 reqW9 parseW9 = ⟨[], Ret.panicked⟩ ∧
    ∀ s c msg, Effect.json s c msg ∉ (jwtGate cfgW9 reqW9 parseW9).trace :=
  C9_missing_auth_type_panics cfgW9 reqW9 parseW9 "tok"
    [("sub", JVal.str "alice")] rfl rfl (fun _ h => by
      rw [show List.lookup "auth_type" [("sub", JVal.str "alice")] = none from rfl] at h
      exact Option.noConfusion h)

/-- C5: for a token whose algorithm name differs (case-sensitive string
comparison) from the configured signing method, the key function built at
setup (src/unnamed/part_000 lines 137-144) errors out, so no key is handed to
the verifier and the signature check never runs (`libKeyStep`), regardless of
the configured key; with the resulting library validation error (no
malformed/expired/not-yet-valid flag) the gate rejects with status 401 and
code `TokenInvalid` = 10403 — a 400-class (4xx) response. -/
theorem C5_alg_mismatch_rejected_before_key (method key alg : String)
    (cfg : ResolvedConfig) (req : Request) (auth emsg : String)
    (tc : TokenClaims)
    (hne : alg ≠ method)
    (hext : cfg.extractor req = Except.ok auth)
    (hEH : cfg.errorHandler = false)
    (hEHC : cfg.errorHandlerWithContext = false)
    (hrt : refreshTest tc = RefreshOutcome.notRefresh) :
    mkKeyFunc method key alg =
      Except.error ("unexpected jwt signing method=" ++ alg) ∧
    libKeyStep (mkKeyFunc method key) alg = (none, false) ∧
    (jwtGate cfg req
        (fun _ => ⟨tc, false, some ⟨⟨false, false, false⟩, emsg⟩⟩)).trace =
      skipPre cfg req ++
        [Effect.json StatusUnauthorized TokenInvalid
           ("Invalid or Expired JWT: " ++ TokenInvalidErr ++
            " [ origin err: " ++ emsg ++ " ] "), Effect.abort] ∧
    400 ≤ StatusUnauthorized ∧ StatusUnauthorized < 500 := by
  have hk : mkKeyFunc method key alg =
      Except.error ("unexpected jwt signing method=" ++ alg) := by
    simp [mkKeyFunc, hne]
  refine ⟨hk, ?_, ?_, by decide, by decide⟩
  · simp [libKeyStep, hk]
  · unfold jwtGate
    rw [hext]
    simp [hrt, hEH, hEHC, classify]

def cfgW5 : ResolvedConfig :=
  ⟨fun _ => false, false, false, false, "secret", "HS256", "user",
   ClaimsShape.custom, "Bearer", mkKeyFunc "HS256" "secret",
   jwtFromHeader "Authorization" "Bearer"⟩

def reqW5 : Request := ⟨[("Authorization", "Bearer tok")], [], [], []⟩

/-- C5 witness: a token naming RS256 against a HS256 configuration is refused
by the key function before any key is released, and the request is rejected
with a 4xx response carrying code 10403. -/
theorem C5_witness :
    mkKeyFunc "HS256" "secret" "RS256" =
      Except.error ("unexpected jwt signing method=" ++ "RS256") ∧
    libKeyStep (mkKeyFunc "HS256" "secret") "RS256" = (none, false) ∧
    (jwtGate cfgW5 reqW5
        (fun _ => ⟨TokenClaims.custom, false,
          some ⟨⟨false, false, false⟩, "signature is invalid"⟩⟩)).trace =
      [Effect.json StatusUnauthorized TokenInvalid
         ("Invalid or Expired JWT: " ++ TokenInvalidErr ++
          " [ origin err: " ++ "signature is invalid" ++ " ] "), Effect.abort] ∧
    400 ≤ StatusUnauthorized ∧ StatusUnauthorized < 500 :=
  C5_alg_mismatch_rejected_before_key "HS256" "secret" "RS256" cfgW5 reqW5
    "tok" "signature is invalid" TokenClaims.custom (by decide) rfl rfl rfl rfl

def cfgX6 : ResolvedConfig :=
  ⟨fun _ => false, false, true, false, "secret", "HS256", "user",
   ClaimsShape.mapClaims, "Bearer", mkKeyFunc "HS256" "secret",
   jwtFromHeader "Authorization" "Bearer"⟩

def reqX6 : Request := ⟨[("Authorization", "Bearer tok")], [], [], []⟩

def parseX6 : String → ParseResult :=
  fun _ => ⟨TokenClaims.mapClaims [("auth_type", JVal.str "refresh")], true, none⟩

/-- C6 counterexample: with an ErrorHandler configured, a refresh-marked token
still gets the default JSON rejection written directly by the refresh branch
(src/unnamed/part_000 lines 194-203), and neither hook is ever invoked — the
claim that every rejection category delegates to a configured hook is false
for RefreshTokenUsed. -/
theorem C6_counterexample :
    cfgX6.errorHandler = true ∧
    jwtGate cfgX6 reqX6 parseX6 =
      ⟨[Effect.json StatusUnauthorized TokenRefresh
          ("Invalid or Expired JWT: " ++ TokenRefreshErr), Effect.abort],
       Ret.errRefresh⟩ ∧
    Effect.errorHook ∉ (jwtGate cfgX6 reqX6 parseX6).trace ∧
    Effect.errorHookCtx ∉ (jwtGate cfgX6 reqX6 parseX6).trace := by
  refine ⟨rfl, rfl, ?_, ?_⟩ <;> decide

/-- C6 amended: when an ErrorHandler or ErrorHandlerWithContext is configured,
the middleware delegates entirely to the hook (ErrorHandler taking
precedence) instead of writing the default JSON response for the
extraction-failure rejection and for every parse-validation rejection; the
RefreshTokenUsed rejection, however, never delegates: it always writes the
default JSON body and aborts, invoking no hook. -/
theorem C6_amended_hook_delegation (cfg : ResolvedConfig) (req : Request)
    (parse : String → ParseResult)
    (hk : cfg.errorHandler = true ∨ cfg.errorHandlerWithContext = true) :
    (∀ e, cfg.extractor req = Except.error e →
       jwtGate cfg req parse =
         ⟨skipPre cfg req ++
            [if cfg.errorHandler then Effect.errorHook else Effect.errorHookCtx],
          if cfg.errorHandler then Ret.fromErrorHandler
          else Ret.fromErrorHandlerCtx⟩) ∧
    (∀ auth ve, cfg.extractor req = Except.ok auth →
       refreshTest (parse auth).claims = RefreshOutcome.notRefresh →
       (parse auth).err = some ve →
       jwtGate cfg req parse =
         ⟨skipPre cfg req ++
            [if cfg.errorHandler then Effect.errorHook else Effect.errorHookCtx],
          if cfg.errorHandler then Ret.fromErrorHandler
          else Ret.fromErrorHandlerCtx⟩) ∧
    (∀ auth, cfg.extractor req = Except.ok auth →
       refreshTest (parse auth).claims = RefreshOutcome.isRefresh →
       jwtGate cfg req parse =
         ⟨skipPre cfg req ++
            [Effect.json StatusUnauthorized TokenRefresh
               ("Invalid or Expired JWT: " ++ TokenRefreshErr), Effect.abort],
          Ret.errRefresh⟩ ∧
       Effect.errorHook ∉ (jwtGate cfg req parse).trace ∧
       Effect.errorHookCtx ∉ (jwtGate cfg req parse).trace) := by
  have hsE : Effect.errorHook ∉ skipPre cfg req := by
    unfold skipPre; split <;> simp
  have hsC : Effect.errorHookCtx ∉ skipPre cfg req := by
    unfold skipPre; split <;> simp
  refine ⟨?_, ?_, ?_⟩
  · intro e hext
    unfold jwtGate
    rw [hext]
    cases hE : cfg.errorHandler
    · have hC : cfg.errorHandlerWithContext = true := by
        rcases hk with h | h
        · rw [hE] at h; exact absurd h (by decide)
        · exact h
      simp [hE, hC]
    · simp [hE]
  · intro auth ve hext hrt herr
    unfold jwtGate
    rw [hext]
    cases hE : cfg.errorHandler
    · have hC : cfg.errorHandlerWithContext = true := by
        rcases hk with h | h
        · rw [hE] at h; exact absurd h (by decide)
        · exact h
      simp [hrt, herr, hE, hC]
    · simp [hrt, herr, hE]
  · intro auth hext hrt
    have hg : jwtGate cfg req parse =
        ⟨skipPre cfg req ++
           [Effect.json StatusUnauthorized TokenRefresh
              ("Invalid or Expired JWT: " ++ TokenRefreshErr), Effect.abort],
         Ret.errRefresh⟩ := by
      unfold jwtGate
      rw [hext]
      simp [hrt]
    refine ⟨hg, ?_, ?_⟩ <;> rw [hg] <;> simp [hsE, hsC]

def cfgW6 : ResolvedConfig :=
  ⟨fun _ => false, false, true, false, "secret", "HS256", "user",
   ClaimsShape.mapClaims, "Bearer", mkKeyFunc "HS256" "secret",
   jwtFromHeader "Authorization" "Bearer"⟩

def reqW6 : Request := ⟨[], [], [], []⟩

/-- C6 witness: with an ErrorHandler configured, a missing-token rejection is
delegated to the hook and no default JSON response is written. -/
theorem C6_witness :
    jwtGate cfgW6 reqW6 parseUnused =
      ⟨[Effect.errorHook], Ret.fromErrorHandler⟩ :=
  (C6_amended_hook_delegation cfgW6 reqW6 parseUnused (Or.inl rfl)).1
    JWTMissingErr rfl

/-- C10: a request never has anything stored under the context key unless its
run admits the token (`Ret.ok`, the Valid path, src/unnamed/part_000 lines
205-213); on the Valid path the trace is exactly: the skip prefix, the store
under `contextKey`, the success hook if configured, then the next handler —
so the store happens before the success hook and before the Valid path's call
to the next handler. -/
theorem C10_storage_only_on_valid (cfg : ResolvedConfig) (req : Request)
    (parse : String → ParseResult) :
    ((jwtGate cfg req parse).ret ≠ Ret.ok →
       ∀ k, Effect.setParam k ∉ (jwtGate cfg req parse).trace) ∧
    ((jwtGate cfg req parse).ret = Ret.ok →
       (jwtGate cfg req parse).trace =
         skipPre cfg req ++ [Effect.setParam cfg.contextKey] ++
           (if cfg.successHandler then [Effect.successHook] else []) ++
           [Effect.next]) := by
  have hsp : ∀ k, Effect.setParam k ∉ skipPre cfg req := by
    intro k; unfold skipPre; split <;> simp
  unfold jwtGate
  rcases hx : cfg.extractor req with e | auth
  · cases hE : cfg.errorHandler <;> cases hC : cfg.errorHandlerWithContext <;>
      simp [hE, hC, hsp]
  · rcases hr : refreshTest (parse auth).claims
    · simp [hr, hsp]
    · simp [hr, hsp]
    · rcases he : (parse auth).err with _ | ve
      · cases hv : (parse auth).valid
        · cases hE : cfg.errorHandler <;>
            cases hC : cfg.errorHandlerWithContext <;>
            simp [hr, he, hv, hE, hC, hsp]
        · simp [hr, he, hv, hsp]
      · cases hE : cfg.errorHandler <;>
          cases hC : cfg.errorHandlerWithContext <;>
          simp [hr, he, hE, hC, hsp]

def cfgW10 : ResolvedConfig :=
  ⟨fun _ => false, false, false, false, "secret", "HS256", "user",
   ClaimsShape.mapClaims, "Bearer", mkKeyFunc "HS256" "secret",
   jwtFromHeader "Authorization" "Bearer"⟩

def reqW10 : Request := ⟨[("Authorization", "Bearer tok")], [], [], []⟩

def parseW10 : String → ParseResult :=
  fun _ => ⟨TokenClaims.mapClaims [("auth_type", JVal.str "access")], true, none⟩

/-- C10 witness: on a Valid run the trace is exactly store-then-next. -/
theorem C10_witness :
    (jwtGate cfgW10 reqW10 parseW10).trace =
      [Effect.setParam "user", Effect.next] :=
  (C10_storage_only_on_valid cfgW10 reqW10 parseW10).2 rfl

end DorisJWT
